import Mathlib

/-!
Shallow embedding of `src/server.js` of the retirement-calculator repository:
the FRED rate-quote path (`fetchFredLatest`, `handleRate` with its 1-hour
cache) and the Buttondown subscription reconciliation path
(`parseJsonBody`, `subscribeToButtondown`, `updateButtondownSubscriber`,
`handleSubscribe`).  Machine numbers are modelled with `ℚ` (exact rational
arithmetic mirroring the source formulas), time stamps with `ℤ`
(milliseconds, as `Date.now()`), and JS objects with association lists and
`Option` for absent fields.  External HTTP interactions are modelled as
explicit outcome parameters, and for the stateful mailing-list service as a
state-passing API record.
-/

namespace MortgageServer

/-- JS truthiness for an optional string: `undefined`/`null` and `""` are
falsy, every other string is truthy. -/
def truthyStr : Option String → Bool
  | none => false
  | some s => s ≠ ""

/-- Whether `pat` occurs as a contiguous run of `s` (prefix check helper),
modelling the JS `String.prototype.includes` test. -/
def listHasPrefix : List Char → List Char → Bool
  | _, [] => true
  | [], _ :: _ => false
  | a :: as, b :: bs => a = b && listHasPrefix as bs

/-- Substring occurrence on character lists. -/
def listHasSub : List Char → List Char → Bool
  | [], pat => pat.isEmpty
  | a :: rest, pat => listHasPrefix (a :: rest) pat || listHasSub rest pat

/-- `containsSub s pat` models the JS call `s.includes(pat)`. -/
def containsSub (s pat : String) : Bool := listHasSub s.data pat.data

/-! ## Rate-quote side (`fetchFredLatest`, `handleRate`) -/

/-- `Math.round` in JS rounds half toward positive infinity:
`Math.round(x) = ⌊x + 1/2⌋`. -/
def jsRound (x : ℚ) : ℤ := Int.floor (x + 1/2)

/-- The quote object built by `fetchFredLatest` (line 33) or the fallback
literal in `handleRate` (line 53). -/
structure RateQuote where
  ratePercent : ℚ
  rawPercent : Option ℚ
  adjustedAdded : ℚ
  observationDate : Option String
  source : String
deriving DecidableEq

/-- One element of the upstream `observations` array: `date` and `value`
fields, where `value` may be absent (`undefined`/`null`). -/
structure Observation where
  value : Option String
  date : String
deriving DecidableEq

/-- `process.env.FRED_SERIES_ID || 'MORTGAGE30US'` (line 14): the default
applies when the variable is absent or empty (falsy). -/
def effectiveSeriesId (env : Option String) : String :=
  match env with
  | some s => if s = "" then "MORTGAGE30US" else s
  | none => "MORTGAGE30US"

/-- Outcome of the upstream FRED HTTP exchange, as observed by
`fetchFredLatest`: `netError` covers a thrown `fetch`, a non-ok status and
a JSON parse failure (lines 23-25, 34-36); `ok obsField` is a parsed body
whose `observations` field may be absent or not an array (`none`, which
line 26 coerces to `[]`); array elements may themselves be null
(`Option Observation`, guarded by `o &&` on line 27). -/
inductive FredFetchOutcome
  | netError
  | ok (obsField : Option (List (Option Observation)))
deriving DecidableEq

/-- The guard of line 27: `o && o.value && o.value !== '.'` — the element is
present, its `value` is a truthy string, and not the `"."` sentinel. -/
def obsValid : Option Observation → Bool
  | none => false
  | some o =>
    match o.value with
    | none => false
    | some v => v ≠ "" && v ≠ "."

/-- `fetchFredLatest` (lines 12-37).  `key` is `process.env.FRED_API_KEY`,
`parseFloat` models the JS builtin, returning `none` exactly when the parsed
value is not a finite number (`!Number.isFinite(raw)`), and `outcome` is the
upstream exchange.  Returns `none` on every failure path. -/
def fetchFredLatest (key : Option String) (seriesEnv : Option String)
    (outcome : FredFetchOutcome) (parseFloat : String → Option ℚ) :
    Option RateQuote :=
  let seriesId := effectiveSeriesId seriesEnv
  if ¬ truthyStr key then none
  else
    match outcome with
    | .netError => none
    | .ok obsField =>
      let obs := obsField.getD []
      match obs.find? obsValid with
      | none => none
      | some firstValid =>
        match firstValid with
        | none => none
        | some o =>
          match o.value with
          | none => none
          | some v =>
            match parseFloat v with
            | none => none
            | some raw =>
              let adjusted := raw + 1/2
              let rounded : ℚ := (jsRound (adjusted * 10) : ℚ) / 10
              some { ratePercent := rounded, rawPercent := some raw,
                     adjustedAdded := 1/2, observationDate := some o.date,
                     source := seriesId }

/-- `TTL = 60 * 60 * 1000` milliseconds (line 46). -/
def TTL : ℤ := 60 * 60 * 1000

/-- The module-level `fredCache` slot: `{ ts, payload }` (line 54). -/
structure CacheEntry where
  ts : ℤ
  payload : RateQuote
deriving DecidableEq

/-- The fallback literal of line 53. -/
def fallbackQuote : RateQuote :=
  { ratePercent := 11/2, rawPercent := none, adjustedAdded := 1/2,
    observationDate := none, source := "fallback" }

/-- Result of one `handleRate` request: the JSON payload written, the new
value of the `fredCache` slot, and whether an upstream fetch was attempted. -/
structure RateStep where
  payload : RateQuote
  cache : Option CacheEntry
  fetched : Bool
deriving DecidableEq

/-- The rate logic of `handleRate` (lines 45-56) for a GET request:
`cache` is the current `fredCache`, `now` is `Date.now()`.  On a fresh hit
the cached payload is returned with no fetch; otherwise `fetchFredLatest`
is attempted, the payload degrades to `fallbackQuote` on `null`, and the
cache slot is replaced wholesale with `{ ts: now, payload }`. -/
def handleRate (cache : Option CacheEntry) (now : ℤ) (key : Option String)
    (seriesEnv : Option String) (outcome : FredFetchOutcome)
    (parseFloat : String → Option ℚ) : RateStep :=
  match cache with
  | some c =>
    if now - c.ts < TTL then
      { payload := c.payload, cache := some c, fetched := false }
    else
      let data := fetchFredLatest key seriesEnv outcome parseFloat
      let payload := data.getD fallbackQuote
      { payload := payload, cache := some { ts := now, payload := payload },
        fetched := true }
  | none =>
    let data := fetchFredLatest key seriesEnv outcome parseFloat
    let payload := data.getD fallbackQuote
    { payload := payload, cache := some { ts := now, payload := payload },
      fetched := true }

/-! ## Subscription side (`parseJsonBody`, `subscribeToButtondown`,
`updateButtondownSubscriber`, `handleSubscribe`) -/

/-- A subscriber record as the Buttondown API returns it.  `tags` and
`metadata` may be absent (the source guards them with `|| []` and `|| {}`
on lines 90-91); metadata is a JS object, modelled as an ordered
association list with unique keys. -/
structure Subscriber where
  id : String
  email : String
  tags : Option (List String)
  metadata : Option (List (String × String))
deriving DecidableEq

/-- The body of the create (POST) request built on line 71. -/
structure CreateRequest where
  email_address : String
  tags : List String
  metadata : List (String × String)
deriving DecidableEq

/-- Outcome of the create POST: `ok` (2xx) or `httpError msg`, where `msg`
is the message extracted on lines 74-76 (`e.detail || e.code || text`). -/
inductive CreateOutcome
  | ok
  | httpError (msg : String)
deriving DecidableEq

/-- Outcome of the search GET (line 85): `httpError` for a non-ok status,
`ok results` for a parsed body whose `results` field may be absent. -/
inductive SearchOutcome
  | httpError
  | ok (results : Option (List Subscriber))
deriving DecidableEq

/-- Outcome of the PATCH (line 94): `httpError text` carries the response
text thrown on line 95. -/
inductive PatchOutcome
  | httpError (text : String)
  | ok
deriving DecidableEq

/-- One upstream network call made by the subscription path, recorded so
theorems can state which calls were (not) made. -/
inductive NetCall
  | create (req : CreateRequest)
  | search (email : String)
  | patch (id : String) (tags : List String) (metadata : List (String × String))
deriving DecidableEq

/-- The external mailing-list service as seen through its three operations,
state-passing over a state type `σ`. -/
structure Api (σ : Type) where
  create : σ → CreateRequest → σ × CreateOutcome
  search : σ → String → σ × SearchOutcome
  patch : σ → String → List String → List (String × String) → σ × PatchOutcome

/-- JSON.stringify of the settlement record `{ name, deadline, subscribedAt }`
built on line 93 (string escaping is not modelled; the keys contain no
escapes and the claims do not depend on value escaping). -/
def serializeSettlement (name : String) (deadline : Option String)
    (subscribedAt : String) : String :=
  "\x7b\"name\":\"" ++ name ++ "\",\"deadline\":" ++
    (match deadline with
     | some d => "\"" ++ d ++ "\""
     | none => "null") ++
    ",\"subscribedAt\":\"" ++ subscribedAt ++ "\"\x7d"

/-- The metadata object of the create body (line 71):
`{ settlementName: name, subscribedAt: now, ...(deadline ? { deadline } : {}) }`. -/
def createMetadata (name : String) (deadline : Option String)
    (nowIso : String) : List (String × String) :=
  [("settlementName", name), ("subscribedAt", nowIso)] ++
    (if truthyStr deadline then [("deadline", deadline.getD "")] else [])

/-- The whole create body of line 71. -/
def createBody (email tag name : String) (deadline : Option String)
    (nowIso : String) : CreateRequest :=
  { email_address := email, tags := [tag],
    metadata := createMetadata name deadline nowIso }

/-- `subscribeToButtondown` (lines 65-80).  Errors are the thrown `Error`
messages.  Returns the post-call service state, the network calls made and
the result (`resp.json()` is discarded by the caller, hence `Unit`). -/
def subscribeToButtondown {σ : Type} (api : Api σ) (st : σ)
    (key : Option String) (email tag name : String) (deadline : Option String)
    (nowIso : String) : σ × List NetCall × Except String Unit :=
  if ¬ truthyStr key then (st, [], .error "BUTTONDOWN_API_KEY not set")
  else
    let req := createBody email tag name deadline nowIso
    let (st2, out) := api.create st req
    match out with
    | .ok => (st2, [.create req], .ok ())
    | .httpError msg => (st2, [.create req], .error msg)

/-- The tag merge of line 90:
`(sub.tags || []).includes(tag) ? sub.tags : [...(sub.tags || []), tag]`. -/
def mergeTags (tags : Option (List String)) (tag : String) : List String :=
  let ts := tags.getD []
  if ts.contains tag then ts else ts ++ [tag]

/-- JS object assignment `meta[k] = v` on an object with unique keys:
replace the value in place when the key exists, append otherwise. -/
def setKey (m : List (String × String)) (k v : String) :
    List (String × String) :=
  if m.any (fun p => p.1 = k) then
    m.map (fun p => if p.1 = k then (k, v) else p)
  else m ++ [(k, v)]

/-- JS object read `m[k]`. -/
def getKey (m : List (String × String)) (k : String) : Option String :=
  (m.find? (fun p => p.1 = k)).map (fun p => p.2)

/-- `updateButtondownSubscriber` (lines 82-97): search by email, take the
first result, merge the tag and the `settlement_<tag>` metadata key, PATCH
by subscriber id. -/
def updateButtondownSubscriber {σ : Type} (api : Api σ) (st : σ)
    (key : Option String) (email tag name : String) (deadline : Option String)
    (nowIso : String) : σ × List NetCall × Except String Unit :=
  if ¬ truthyStr key then (st, [], .error "BUTTONDOWN_API_KEY not set")
  else
    let (st1, sres) := api.search st email
    match sres with
    | .httpError => (st1, [.search email], .error "Failed to find subscriber")
    | .ok results =>
      match results.getD [] with
      | [] => (st1, [.search email], .error "Subscriber not found")
      | sub :: _ =>
        let updatedTags := mergeTags sub.tags tag
        let settlementKey := "settlement_" ++ tag
        let meta := setKey (sub.metadata.getD []) settlementKey
          (serializeSettlement name deadline nowIso)
        let (st2, pres) := api.patch st1 sub.id updatedTags meta
        match pres with
        | .httpError text =>
          (st2, [.search email, .patch sub.id updatedTags meta], .error text)
        | .ok =>
          (st2, [.search email, .patch sub.id updatedTags meta], .ok ())

/-- The fields `handleSubscribe` destructures from the parsed body
(line 106); absent fields are `none`. -/
structure SubBody where
  email : Option String
  settlementId : Option String
  settlementName : Option String
  deadline : Option String
deriving DecidableEq

/-- The body with every field absent: what destructuring `{}` yields. -/
def emptySubBody : SubBody :=
  { email := none, settlementId := none, settlementName := none,
    deadline := none }

/-- A raw request body as `parseJsonBody` sees it: empty, not valid JSON,
or valid JSON carrying the destructured fields. -/
inductive RawBody
  | empty
  | malformed
  | wellFormed (b : SubBody)
deriving DecidableEq

/-- `parseJsonBody` (lines 59-63): an empty body is parsed as `'{}'`
(yielding the empty object) and a JSON parse failure is caught and also
yields the empty object; the function is total — it never raises. -/
def parseJsonBody : RawBody → SubBody
  | .empty => emptySubBody
  | .malformed => emptySubBody
  | .wellFormed b => b

/-- The response written by the subscription endpoint for a POST request:
status code and the shape of the JSON body. -/
inductive SubResult
  | badRequest (error : String)
  | okCreated
  | okUpdated
  | serverError (error : String)
deriving DecidableEq

/-- `handleSubscribe` (lines 99-123) for a POST request: parse the body,
validate (email truthy and containing `"@"`; `settlementId` and
`settlementName` truthy) before any upstream call, attempt create, and on a
create failure whose message includes `'already subscribed'` fall back to
update; any other failure is caught by the outer handler as a 500 carrying
the message. -/
def handleSubscribe {σ : Type} (api : Api σ) (st : σ) (key : Option String)
    (body : RawBody) (nowIso : String) : σ × List NetCall × SubResult :=
  let b := parseJsonBody body
  if ¬ (truthyStr b.email && containsSub (b.email.getD "") "@") then
    (st, [], .badRequest "Invalid email address")
  else if ¬ (truthyStr b.settlementId && truthyStr b.settlementName) then
    (st, [], .badRequest "Missing required fields")
  else
    let email := b.email.getD ""
    let tag := b.settlementId.getD ""
    let name := b.settlementName.getD ""
    let deadline := if truthyStr b.deadline then b.deadline else none
    let (st1, calls1, r) :=
      subscribeToButtondown api st key email tag name deadline nowIso
    match r with
    | .ok _ => (st1, calls1, .okCreated)
    | .error msg =>
      if containsSub msg "already subscribed" then
        let (st2, calls2, r2) :=
          updateButtondownSubscriber api st1 key email tag name deadline nowIso
        match r2 with
        | .ok _ => (st2, calls1 ++ calls2, .okUpdated)
        | .error m2 => (st2, calls1 ++ calls2, .serverError m2)
      else (st1, calls1, .serverError msg)

/-- A service whose three operations return fixed outcomes and keep no
state, for claims about a single reconcile against given upstream
responses. -/
def constApi (c : CreateOutcome) (s : SearchOutcome) (p : PatchOutcome) :
    Api Unit :=
  { create := fun st _ => (st, c),
    search := fun st _ => (st, s),
    patch := fun st _ _ _ => (st, p) }

/-- Modelled from the spec: §6 describes the consumed mailing-list API
(`create subscriber(email, tags, metadata)`, `search subscriber by email`,
`patch subscriber(id, tags, metadata)`) without giving its code, which is
not part of this repository.  The create operation stores the requested
tags and metadata for a new email and rejects a duplicate email with the
"already subscribed" indicator that §4.2 step 3 says the upstream reports. -/
def storeCreate (st : List Subscriber) (req : CreateRequest) :
    List Subscriber × CreateOutcome :=
  if st.any (fun s => s.email = req.email_address) then
    (st, .httpError "That email address is already subscribed.")
  else
    (st ++ [{ id := toString st.length, email := req.email_address,
              tags := some req.tags, metadata := some req.metadata }], .ok)

/-- Modelled from the spec: §6's `search subscriber by email(email) ->
{results: [subscriber]}`. -/
def storeSearch (st : List Subscriber) (email : String) :
    List Subscriber × SearchOutcome :=
  (st, .ok (some (st.filter (fun s => s.email = email))))

/-- Modelled from the spec: §6's `patch subscriber(id, tags, metadata)`,
replacing the tags and metadata of the subscriber with that id. -/
def storePatch (st : List Subscriber) (id : String) (tags : List String)
    (meta : List (String × String)) : List Subscriber × PatchOutcome :=
  (st.map (fun s =>
    if s.id = id then { s with tags := some tags, metadata := some meta }
    else s), .ok)

/-- Modelled from the spec: the external mailing-list service of §6 as a
stateful collaborator holding a list of subscribers. -/
def storeApi : Api (List Subscriber) :=
  { create := storeCreate, search := storeSearch, patch := storePatch }

/-- The spec's exposed `reconcile(email, tag, name, deadline?)` contract:
`handleSubscribe` on a well-formed JSON body carrying those fields, run
against the mailing-list service state. -/
def reconcile (st : List Subscriber) (key : Option String)
    (email tag name : String) (deadline : Option String) (nowIso : String) :
    List Subscriber × List NetCall × SubResult :=
  handleSubscribe storeApi st key
    (.wellFormed { email := some email, settlementId := some tag,
                   settlementName := some name, deadline := deadline })
    nowIso

/-! ## Theorems -/

/-- C3: for every upstream response whose first observation with a present,
non-sentinel (`"."`) value parses to a finite number `r`, `getQuote()`
returns a quote with `ratePercent = round((r + 0.5) * 10) / 10`,
`rawPercent = r`, `adjustedAdded = 0.5`, `observationDate` equal to that
observation's date, and `source` equal to the configured series
identifier. -/
theorem C3_rate_formula (key seriesEnv : Option String)
    (obsField : Option (List (Option Observation)))
    (parseFloat : String → Option ℚ) (o : Observation) (v : String) (r : ℚ)
    (hkey : truthyStr key = true)
    (hfind : (obsField.getD []).find? obsValid = some (some o))
    (hval : o.value = some v)
    (hparse : parseFloat v = some r) :
    fetchFredLatest key seriesEnv (.ok obsField) parseFloat =
      some { ratePercent := (jsRound ((r + 1/2) * 10) : ℚ) / 10,
             rawPercent := some r, adjustedAdded := 1/2,
             observationDate := some o.date,
             source := effectiveSeriesId seriesEnv } := by
  simp [fetchFredLatest, hkey, hfind, hval, hparse]

/-- Witness for C3 at a concrete upstream response (raw value 6.97). -/
theorem C3_rate_formula_witness :
    fetchFredLatest (some "k") none
      (.ok (some [some { value := some "6.97", date := "2026-01-02" }]))
      (fun v => if v = "6.97" then some (697/100) else none) =
      some { ratePercent := (jsRound ((697/100 + 1/2) * 10) : ℚ) / 10,
             rawPercent := some (697/100), adjustedAdded := 1/2,
             observationDate := some "2026-01-02",
             source := effectiveSeriesId none } :=
  C3_rate_formula (some "k") none
    (some [some { value := some "6.97", date := "2026-01-02" }])
    (fun v => if v = "6.97" then some (697/100) else none)
    { value := some "6.97", date := "2026-01-02" } "6.97" (697/100)
    (by decide) (by decide) rfl rfl

/-- C4: `getQuote()` never fails: whatever the upstream fetch outcome
(credential absent, network/HTTP/parse failure, no valid observation, or a
non-finite parsed value), the handler returns a value, and on any such
fetch failure — here on a cache miss, which is when a fetch happens — the
payload is exactly the fallback quote
`{ ratePercent := 5.5, rawPercent := none, adjustedAdded := 0.5,
observationDate := none, source := "fallback" }`. -/
theorem C4_fallback (cache : Option CacheEntry) (now : ℤ)
    (key seriesEnv : Option String) (outcome : FredFetchOutcome)
    (parseFloat : String → Option ℚ)
    (hmiss : ∀ c, cache = some c → TTL ≤ now - c.ts)
    (hfail : truthyStr key = false ∨ outcome = .netError ∨
      (∃ obsField, outcome = .ok obsField ∧
        (obsField.getD []).find? obsValid = none) ∨
      (∃ obsField o v, outcome = .ok obsField ∧
        (obsField.getD []).find? obsValid = some (some o) ∧
        o.value = some v ∧ parseFloat v = none)) :
    fetchFredLatest key seriesEnv outcome parseFloat = none ∧
    handleRate cache now key seriesEnv outcome parseFloat =
      { payload := fallbackQuote,
        cache := some { ts := now, payload := fallbackQuote },
        fetched := true } := by
  have hfetch : fetchFredLatest key seriesEnv outcome parseFloat = none := by
    rcases hfail with h | h | ⟨f, rfl, h⟩ | ⟨f, o, v, rfl, h1, h2, h3⟩
    · simp [fetchFredLatest, h]
    · subst h
      by_cases hk : truthyStr key <;> simp [fetchFredLatest, hk]
    · by_cases hk : truthyStr key <;> simp [fetchFredLatest, hk, h]
    · by_cases hk : truthyStr key <;> simp [fetchFredLatest, hk, h1, h2, h3]
  refine ⟨hfetch, ?_⟩
  match cache with
  | none => simp [handleRate, hfetch]
  | some c =>
    have hc := hmiss c rfl
    simp [handleRate, hfetch, not_lt.2 hc]

/-- Witness for C4: empty cache, credential absent. -/
theorem C4_fallback_witness :
    fetchFredLatest none none FredFetchOutcome.netError (fun _ => none) =
      none ∧
    handleRate none 0 none none FredFetchOutcome.netError (fun _ => none) =
      { payload := fallbackQuote,
        cache := some { ts := 0, payload := fallbackQuote },
        fetched := true } :=
  C4_fallback none 0 none none FredFetchOutcome.netError (fun _ => none)
    (by intro c hc; cases hc) (Or.inl rfl)

/-- C5: a cache entry captured at `t` makes every call at `t'` with
`t' - t < 1h` return the cached payload unchanged with no upstream fetch
and the entry untouched; only when the entry is absent or its age is at
least the 1-hour TTL is a fetch attempted, and the stored entry is then
replaced wholesale with `capturedAt = now` and the freshly computed
payload. -/
theorem C5_cache_ttl (cache : Option CacheEntry) (now : ℤ)
    (key seriesEnv : Option String) (outcome : FredFetchOutcome)
    (parseFloat : String → Option ℚ) :
    (∀ c, cache = some c → now - c.ts < TTL →
      handleRate cache now key seriesEnv outcome parseFloat =
        { payload := c.payload, cache := some c, fetched := false }) ∧
    ((cache = none ∨ ∃ c, cache = some c ∧ TTL ≤ now - c.ts) →
      handleRate cache now key seriesEnv outcome parseFloat =
        { payload :=
            (fetchFredLatest key seriesEnv outcome parseFloat).getD
              fallbackQuote,
          cache := some
            ⟨now, (fetchFredLatest key seriesEnv outcome parseFloat).getD
              fallbackQuote⟩,
          fetched := true }) := by
  constructor
  · rintro c rfl h
    simp [handleRate, h]
  · rintro (rfl | ⟨c, rfl, h⟩)
    · simp [handleRate]
    · simp [handleRate, not_lt.2 h]

/-- Witness for C5: a 100 ms old entry is served from cache with no
fetch. -/
theorem C5_cache_ttl_witness :
    handleRate (some { ts := 0, payload := fallbackQuote }) 100 none none
      FredFetchOutcome.netError (fun _ => none) =
      { payload := fallbackQuote,
        cache := some { ts := 0, payload := fallbackQuote },
        fetched := false } :=
  (C5_cache_ttl (some { ts := 0, payload := fallbackQuote }) 100 none none
    FredFetchOutcome.netError (fun _ => none)).1
    { ts := 0, payload := fallbackQuote } rfl (by norm_num [TTL])

/-- C6: whenever the email does not contain `"@"` (including an absent or
empty email), or the tag (`settlementId`) is empty/absent, or the name
(`settlementName`) is empty/absent, the reconcile request is rejected with
a client-error (400) response and no upstream network call of any kind is
made — validation happens before any network call, for every service `api`
and state. -/
theorem C6_validation {σ : Type} (api : Api σ) (st : σ) (key : Option String)
    (body : RawBody) (nowIso : String)
    (hbad : (parseJsonBody body).email = none ∨
      (∃ e, (parseJsonBody body).email = some e ∧ containsSub e "@" = false) ∨
      truthyStr (parseJsonBody body).settlementId = false ∨
      truthyStr (parseJsonBody body).settlementName = false) :
    ∃ msg, handleSubscribe api st key body nowIso = (st, [], .badRequest msg) := by
  rcases hbad with h | ⟨e, he, h⟩ | h | h
  · exact ⟨"Invalid email address", by simp [handleSubscribe, h, truthyStr]⟩
  · refine ⟨"Invalid email address", ?_⟩
    simp [handleSubscribe, he, h, truthyStr]
  · by_cases hem : truthyStr (parseJsonBody body).email &&
      containsSub ((parseJsonBody body).email.getD "") "@"
    · exact ⟨"Missing required fields", by simp [handleSubscribe, hem, h]⟩
    · exact ⟨"Invalid email address", by simp [handleSubscribe, hem]⟩
  · by_cases hem : truthyStr (parseJsonBody body).email &&
      containsSub ((parseJsonBody body).email.getD "") "@"
    · exact ⟨"Missing required fields", by simp [handleSubscribe, hem, h]⟩
    · exact ⟨"Invalid email address", by simp [handleSubscribe, hem]⟩

/-- Witness for C6: an email without `"@"` is rejected with no upstream
call against the stateful service model. -/
theorem C6_validation_witness :
    ∃ msg, handleSubscribe storeApi [] (some "k")
      (.wellFormed { email := some "no-at-sign", settlementId := some "t",
                     settlementName := some "n", deadline := none }) "T" =
      ([], [], .badRequest msg) :=
  C6_validation storeApi [] (some "k")
    (.wellFormed { email := some "no-at-sign", settlementId := some "t",
                   settlementName := some "n", deadline := none }) "T"
    (Or.inr (Or.inl ⟨"no-at-sign", rfl, by decide⟩))

/-- C9: when the create step fails with the "already subscribed" indicator
but the subsequent search-by-email returns no results (or an absent
results list), reconcile fails with the not-found error
(`"Subscriber not found"`, surfaced as a server error) and no PATCH call is
made — the trace holds exactly the create and search calls. -/
theorem C9_search_not_found (msg : String) (key : Option String)
    (email tag name : String) (dl : Option String) (nowIso : String)
    (p : PatchOutcome) (results : Option (List Subscriber))
    (hkey : truthyStr key = true)
    (hemail : email ≠ "") (hat : containsSub email "@" = true)
    (htag : tag ≠ "") (hname : name ≠ "")
    (hmsg : containsSub msg "already subscribed" = true)
    (hempty : results.getD [] = []) :
    handleSubscribe (constApi (.httpError msg) (.ok results) p) () key
      (.wellFormed { email := some email, settlementId := some tag,
                     settlementName := some name, deadline := dl }) nowIso =
      ((), [.create (createBody email tag name
              (if truthyStr dl then dl else none) nowIso),
            .search email],
       .serverError "Subscriber not found") := by
  have he : truthyStr (some email) = true := by simp [truthyStr, hemail]
  have ht : truthyStr (some tag) = true := by simp [truthyStr, htag]
  have hn : truthyStr (some name) = true := by simp [truthyStr, hname]
  simp [handleSubscribe, parseJsonBody, subscribeToButtondown,
    updateButtondownSubscriber, constApi, he, ht, hn, hat, hkey, hmsg,
    hempty]

/-- Witness for C9 at concrete inputs. -/
theorem C9_search_not_found_witness :
    handleSubscribe
      (constApi (.httpError "already subscribed") (.ok (some [])) .ok) ()
      (some "k")
      (.wellFormed { email := some "u@x.com", settlementId := some "tagA",
                     settlementName := some "Name", deadline := none }) "T" =
      ((), [.create (createBody "u@x.com" "tagA" "Name"
              (if truthyStr none then none else none) "T"),
            .search "u@x.com"],
       .serverError "Subscriber not found") :=
  C9_search_not_found "already subscribed" (some "k") "u@x.com" "tagA"
    "Name" none "T" .ok (some []) rfl (by decide) (by decide) (by decide)
    (by decide) (by decide) rfl

/-- C10: the body parser never raises — it is a total function — and on an
empty body or a string that is not valid JSON it yields the empty object,
so the request is rejected by input validation as a client error
(400 `"Invalid email address"`), never surfaced as a parse crash or server
error, for every service and state. -/
theorem C10_body_parse {σ : Type} (api : Api σ) (st : σ)
    (key : Option String) (nowIso : String) (body : RawBody)
    (hbody : body = .empty ∨ body = .malformed) :
    parseJsonBody body = emptySubBody ∧
    handleSubscribe api st key body nowIso =
      (st, [], .badRequest "Invalid email address") := by
  rcases hbody with rfl | rfl <;>
    exact ⟨rfl, by simp [handleSubscribe, parseJsonBody, emptySubBody, truthyStr]⟩

/-- Witness for C10: a malformed body against the stateful service model. -/
theorem C10_body_parse_witness :
    parseJsonBody .malformed = emptySubBody ∧
    handleSubscribe storeApi [] (some "k") .malformed "T" =
      ([], [], .badRequest "Invalid email address") :=
  C10_body_parse storeApi [] (some "k") "T" .malformed (Or.inr rfl)

/-- C7: for every create failure, exactly when the failure message contains
the `"already subscribed"` indicator does reconcile fall back to the update
path — the response and trace then being those of
`updateButtondownSubscriber`, signalling "existing subscription updated"
(`okUpdated`) on its success; any other create failure propagates as a
server error carrying the message, with no update call attempted. -/
theorem C7_already_indicator (msg : String) (key : Option String)
    (email tag name : String) (dl : Option String) (nowIso : String)
    (s : SearchOutcome) (p : PatchOutcome)
    (hkey : truthyStr key = true) (hemail : email ≠ "")
    (hat : containsSub email "@" = true) (htag : tag ≠ "")
    (hname : name ≠ "") :
    (containsSub msg "already subscribed" = false →
      handleSubscribe (constApi (.httpError msg) s p) () key
        (.wellFormed { email := some email, settlementId := some tag,
                       settlementName := some name, deadline := dl })
        nowIso =
        ((), [.create (createBody email tag name
                (if truthyStr dl then dl else none) nowIso)],
         .serverError msg)) ∧
    (containsSub msg "already subscribed" = true →
      handleSubscribe (constApi (.httpError msg) s p) () key
        (.wellFormed { email := some email, settlementId := some tag,
                       settlementName := some name, deadline := dl })
        nowIso =
        ((), .create (createBody email tag name
                (if truthyStr dl then dl else none) nowIso) ::
              (updateButtondownSubscriber (constApi (.httpError msg) s p)
                () key email tag name (if truthyStr dl then dl else none)
                nowIso).2.1,
         match (updateButtondownSubscriber (constApi (.httpError msg) s p)
                 () key email tag name (if truthyStr dl then dl else none)
                 nowIso).2.2 with
         | .ok _ => .okUpdated
         | .error m2 => .serverError m2)) := by
  have he : truthyStr (some email) = true := by simp [truthyStr, hemail]
  have ht : truthyStr (some tag) = true := by simp [truthyStr, htag]
  have hn : truthyStr (some name) = true := by simp [truthyStr, hname]
  constructor
  · intro h
    simp [handleSubscribe, parseJsonBody, subscribeToButtondown, constApi,
      he, ht, hn, hat, hkey, h]
  · intro h
    rcases s with _ | results
    · simp [handleSubscribe, parseJsonBody, subscribeToButtondown,
        updateButtondownSubscriber, constApi, he, ht, hn, hat, hkey, h]
    · rcases results with _ | (_ | ⟨sub, rest⟩) <;> cases p <;>
        simp [handleSubscribe, parseJsonBody, subscribeToButtondown,
          updateButtondownSubscriber, constApi, he, ht, hn, hat, hkey, h]

/-- Witness for C7: a non-matching failure message propagates as a server
error with no update call. -/
theorem C7_already_indicator_witness :
    handleSubscribe
      (constApi (.httpError "rate limited") SearchOutcome.httpError .ok) ()
      (some "k")
      (.wellFormed { email := some "u@x.com", settlementId := some "tagA",
                     settlementName := some "Name", deadline := none }) "T" =
      ((), [.create (createBody "u@x.com" "tagA" "Name"
              (if truthyStr none then none else none) "T")],
       .serverError "rate limited") :=
  (C7_already_indicator "rate limited" (some "k") "u@x.com" "tagA" "Name"
    none "T" SearchOutcome.httpError .ok rfl (by decide) (by decide)
    (by decide) (by decide)).1 (by decide)

/-- Setting a key and reading it back yields the new value. -/
theorem getKey_setKey_self (m : List (String × String)) (k v : String) :
    getKey (setKey m k v) k = some v := by
  rw [setKey]
  split
  next hany =>
    rw [getKey, List.find?_map]
    have hqf : ((fun p : String × String => decide (p.1 = k)) ∘
        (fun p : String × String => if p.1 = k then (k, v) else p)) =
        (fun p : String × String => decide (p.1 = k)) := by
      funext p
      by_cases hp : p.1 = k <;> simp [hp]
    rw [hqf]
    obtain ⟨p₀, hp₀⟩ := Option.isSome_iff_exists.mp
      (List.find?_isSome.mpr (List.any_eq_true.mp hany))
    have hk := List.find?_some hp₀
    simp only [decide_eq_true_eq] at hk
    simp [hp₀, hk]
  next hany =>
    rw [getKey, List.find?_append]
    have hnone : m.find? (fun p => p.1 = k) = none := by
      rw [List.find?_eq_none]
      intro p hp
      simp only [Bool.not_eq_true, decide_eq_false_iff_not]
      intro hcontra
      exact hany (List.any_eq_true.mpr ⟨p, hp, by simp [hcontra]⟩)
    simp [hnone]

/-- Setting a key leaves every other key's value unchanged. -/
theorem getKey_setKey_ne (m : List (String × String)) (k v k' : String)
    (h : k' ≠ k) : getKey (setKey m k v) k' = getKey m k' := by
  rw [setKey]
  split
  next hany =>
    rw [getKey, List.find?_map]
    have hqf : ((fun p : String × String => decide (p.1 = k')) ∘
        (fun p : String × String => if p.1 = k then (k, v) else p)) =
        (fun p : String × String => decide (p.1 = k')) := by
      funext p
      by_cases hp : p.1 = k <;> simp [hp, h, Ne.symm h]
    rw [hqf]
    cases hf : m.find? (fun p => p.1 = k') with
    | none => simp [getKey, hf]
    | some p₀ =>
      have hk := List.find?_some hf
      simp only [decide_eq_true_eq] at hk
      have hne : ¬ p₀.1 = k := by rw [hk]; exact h
      simp [getKey, hf, hne]
  next hany =>
    rw [getKey, List.find?_append]
    have : ((k, v) : String × String).1 = k' ↔ False := by simp [Ne.symm h]
    simp [getKey, List.find?, Ne.symm h]

/-- C8: the update path's merge, for every existing subscriber state:
the merged tag list contains the tag exactly once (added only if absent,
never duplicated), drops no other tag and introduces nothing but the tag;
the merged metadata has `settlement_<tag>` set to the new serialized
settlement record and every other key unchanged; merging the same tag
twice yields the same tag list as merging it once; and
`updateButtondownSubscriber` issues its PATCH with exactly this merged
tag list and metadata. -/
theorem C8_merge (ts : List String) (tag : String)
    (m : List (String × String)) (name : String) (dl : Option String)
    (nowIso : String) (hcount : ts.count tag ≤ 1) :
    tag ∈ mergeTags (some ts) tag ∧
    (mergeTags (some ts) tag).count tag = 1 ∧
    (∀ t, t ∈ ts → t ∈ mergeTags (some ts) tag) ∧
    (∀ t, t ∈ mergeTags (some ts) tag → t ∈ ts ∨ t = tag) ∧
    mergeTags (some (mergeTags (some ts) tag)) tag = mergeTags (some ts) tag ∧
    getKey (setKey m ("settlement_" ++ tag)
        (serializeSettlement name dl nowIso)) ("settlement_" ++ tag) =
      some (serializeSettlement name dl nowIso) ∧
    (∀ k, k ≠ "settlement_" ++ tag →
      getKey (setKey m ("settlement_" ++ tag)
          (serializeSettlement name dl nowIso)) k = getKey m k) ∧
    (∀ (key : Option String) (email : String) (sub : Subscriber)
        (c : CreateOutcome) (p : PatchOutcome),
      truthyStr key = true → sub.tags = some ts → sub.metadata = some m →
      (updateButtondownSubscriber (constApi c (.ok (some [sub])) p) () key
          email tag name dl nowIso).2.1 =
        [.search email,
         .patch sub.id (mergeTags (some ts) tag)
           (setKey m ("settlement_" ++ tag)
             (serializeSettlement name dl nowIso))]) := by
  by_cases hmem : tag ∈ ts
  · have hres : mergeTags (some ts) tag = ts := by simp [mergeTags, hmem]
    refine ⟨?_, ?_, ?_, ?_, ?_, getKey_setKey_self m _ _,
      fun k hk => getKey_setKey_ne m _ _ k hk, ?_⟩
    · rw [hres]; exact hmem
    · rw [hres]
      have := List.one_le_count_iff.mpr hmem
      omega
    · intro t ht; rw [hres]; exact ht
    · intro t ht; rw [hres] at ht; exact Or.inl ht
    · rw [hres]; exact hres
    · intro key email sub c p hkey htags hmeta
      cases p <;>
        simp [updateButtondownSubscriber, constApi, hkey, htags, hmeta]
  · have hres : mergeTags (some ts) tag = ts ++ [tag] := by
      simp [mergeTags, hmem]
    refine ⟨?_, ?_, ?_, ?_, ?_, getKey_setKey_self m _ _,
      fun k hk => getKey_setKey_ne m _ _ k hk, ?_⟩
    · rw [hres]; simp
    · rw [hres, List.count_append]
      simp [List.count_eq_zero.mpr hmem]
    · intro t ht; rw [hres]; simp [ht]
    · intro t ht; rw [hres] at ht
      rcases List.mem_append.mp ht with h1 | h1
      · exact Or.inl h1
      · exact Or.inr (by simpa using h1)
    · rw [hres]; simp [mergeTags]
    · intro key email sub c p hkey htags hmeta
      cases p <;>
        simp [updateButtondownSubscriber, constApi, hkey, htags, hmeta]

/-- Witness for C8: merging tag `"tagA"` into tags `["other"]` and
metadata `[("settlement_other", "x")]`. -/
theorem C8_merge_witness :
    (mergeTags (some ["other"]) "tagA").count "tagA" = 1 ∧
    getKey (setKey [("settlement_other", "x")] ("settlement_" ++ "tagA")
        (serializeSettlement "Name" none "T")) ("settlement_" ++ "tagA") =
      some (serializeSettlement "Name" none "T") :=
  ⟨(C8_merge ["other"] "tagA" [("settlement_other", "x")] "Name" none "T"
      (by decide)).2.1,
   (C8_merge ["other"] "tagA" [("settlement_other", "x")] "Name" none "T"
      (by decide)).2.2.2.2.2.1⟩

/-- A key whose first eleven characters are not `"settlement_"` is never of
the form `"settlement_" ++ tag`. -/
theorem settlementKey_ne (tag k : String)
    (hk : k.data.take 11 ≠ "settlement_".data) :
    "settlement_" ++ tag ≠ k := by
  intro h
  apply hk
  have h2 : ("settlement_" ++ tag).data = k.data := congrArg String.data h
  rw [String.data_append] at h2
  have h3 := congrArg (List.take 11) h2
  rw [List.take_left' (show ("settlement_".data).length = 11 from rfl)] at h3
  exact h3.symm

/-- Distinct tags produce distinct `settlement_<tag>` keys. -/
theorem settlementKey_inj {a b : String}
    (h : "settlement_" ++ a = "settlement_" ++ b) : a = b := by
  have h2 := congrArg String.data h
  rw [String.data_append, String.data_append] at h2
  exact congrArg String.mk (List.append_cancel_left h2)

/-- The metadata written by the create path carries no `settlement_<tag>`
key: its keys are `settlementName`, `subscribedAt` and possibly
`deadline`. -/
theorem find?_createMetadata_settlement (name : String) (dl : Option String)
    (nowIso tag : String) :
    (createMetadata name dl nowIso).find?
      (fun p => p.1 = "settlement_" ++ tag) = none := by
  have h1 := Ne.symm (settlementKey_ne tag "settlementName" (by decide))
  have h2 := Ne.symm (settlementKey_ne tag "subscribedAt" (by decide))
  have h3 := Ne.symm (settlementKey_ne tag "deadline" (by decide))
  by_cases hd : truthyStr dl <;> simp [createMetadata, hd, h1, h2, h3]

/-- `getKey` version of `find?_createMetadata_settlement`. -/
theorem getKey_createMetadata_settlement (name : String) (dl : Option String)
    (nowIso tag : String) :
    getKey (createMetadata name dl nowIso) ("settlement_" ++ tag) = none := by
  rw [getKey, find?_createMetadata_settlement]
  rfl

/-- `any` version of `find?_createMetadata_settlement`. -/
theorem any_createMetadata_settlement (name : String) (dl : Option String)
    (nowIso tag : String) :
    (createMetadata name dl nowIso).any
      (fun p => p.1 = "settlement_" ++ tag) = false := by
  have h1 := Ne.symm (settlementKey_ne tag "settlementName" (by decide))
  have h2 := Ne.symm (settlementKey_ne tag "subscribedAt" (by decide))
  have h3 := Ne.symm (settlementKey_ne tag "deadline" (by decide))
  by_cases hd : truthyStr dl <;> simp [createMetadata, hd, h1, h2, h3]

/-- A reconcile with valid inputs against a service state holding no
subscriber with that email takes the create path: the new subscriber is
appended with exactly the requested tag list `[tag]` and the flat create
metadata, the only upstream call is the create POST, and the disposition
is "created". -/
theorem reconcile_fresh (st0 : List Subscriber) (key : Option String)
    (email tag name : String) (dl : Option String) (nowIso : String)
    (hkey : truthyStr key = true) (hemail : email ≠ "")
    (hat : containsSub email "@" = true) (htag : tag ≠ "")
    (hname : name ≠ "") (hnone : ∀ s ∈ st0, s.email ≠ email) :
    reconcile st0 key email tag name dl nowIso =
      (st0 ++ [{ id := toString st0.length, email := email,
                 tags := some [tag],
                 metadata := some (createMetadata name
                   (if truthyStr dl then dl else none) nowIso) }],
       [.create (createBody email tag name
         (if truthyStr dl then dl else none) nowIso)],
       .okCreated) := by
  have he : truthyStr (some email) = true := by simp [truthyStr, hemail]
  have ht : truthyStr (some tag) = true := by simp [truthyStr, htag]
  have hn : truthyStr (some name) = true := by simp [truthyStr, hname]
  have hany : st0.any (fun s => s.email = email) = false := by
    rw [List.any_eq_false]
    intro s hs
    simp [hnone s hs]
  simp [reconcile, handleSubscribe, parseJsonBody, subscribeToButtondown,
    storeApi, storeCreate, he, ht, hn, hat, hkey, hany, createBody]

/-- A reconcile with valid inputs against a service state holding exactly
one subscriber, whose email matches, takes the create-then-update path:
create fails with the "already subscribed" indicator, the subscriber is
found by search, and the PATCH stores the merged tags and metadata; the
disposition is "updated". -/
theorem reconcile_single (sub0 : Subscriber) (key : Option String)
    (email tag name : String) (dl : Option String) (nowIso : String)
    (hkey : truthyStr key = true) (hemail : email ≠ "")
    (hat : containsSub email "@" = true) (htag : tag ≠ "")
    (hname : name ≠ "") (hsub : sub0.email = email) :
    reconcile [sub0] key email tag name dl nowIso =
      ([{ sub0 with
            tags := some (mergeTags sub0.tags tag),
            metadata := some (setKey (sub0.metadata.getD [])
              ("settlement_" ++ tag)
              (serializeSettlement name (if truthyStr dl then dl else none)
                nowIso)) }],
       [.create (createBody email tag name
          (if truthyStr dl then dl else none) nowIso),
        .search email,
        .patch sub0.id (mergeTags sub0.tags tag)
          (setKey (sub0.metadata.getD []) ("settlement_" ++ tag)
            (serializeSettlement name (if truthyStr dl then dl else none)
              nowIso))],
       .okUpdated) := by
  have he : truthyStr (some email) = true := by simp [truthyStr, hemail]
  have ht : truthyStr (some tag) = true := by simp [truthyStr, htag]
  have hn : truthyStr (some name) = true := by simp [truthyStr, hname]
  have hc : containsSub "That email address is already subscribed."
      "already subscribed" = true := by decide
  simp [reconcile, handleSubscribe, parseJsonBody, subscribeToButtondown,
    updateButtondownSubscriber, storeApi, storeCreate, storeSearch,
    storePatch, he, ht, hn, hat, hkey, hsub, hc, createBody]

/-- C1 counterexample: reconciling `("user@x.com", "tagA", "Name", null)`
against an upstream with no existing subscriber creates a subscriber whose
tags include `tagA` — but whose metadata does NOT contain the key
`settlement_tagA`, contradicting the claim: the create path stores the
flat keys `settlementName`/`subscribedAt` instead. -/
theorem C1_counterexample :
    (reconcile [] (some "k") "user@x.com" "tagA" "Name" none "T").2.2 =
      .okCreated ∧
    ((reconcile [] (some "k") "user@x.com" "tagA" "Name" none "T").1.map
      (fun s => ((s.tags.getD []).contains "tagA",
                 getKey (s.metadata.getD []) "settlement_tagA"))) =
      [(true, none)] := by
  decide

/-- C1 (amended): the create path of reconcile calls the upstream
add-subscriber operation with a tag set containing exactly the tag and
with the flat metadata `{settlementName: name, subscribedAt: now,
deadline?}` — not a record keyed `settlement_<tag>`; a reconcile against
an upstream with no existing subscriber for that email results in a
created subscriber whose tags include the tag and whose metadata does not
contain the key `settlement_<tag>`. -/
theorem C1_create_path (st0 : List Subscriber) (key : Option String)
    (email tag name : String) (dl : Option String) (nowIso : String)
    (hkey : truthyStr key = true) (hemail : email ≠ "")
    (hat : containsSub email "@" = true) (htag : tag ≠ "")
    (hname : name ≠ "") (hnone : ∀ s ∈ st0, s.email ≠ email) :
    reconcile st0 key email tag name dl nowIso =
      (st0 ++ [{ id := toString st0.length, email := email,
                 tags := some [tag],
                 metadata := some (createMetadata name
                   (if truthyStr dl then dl else none) nowIso) }],
       [.create (createBody email tag name
         (if truthyStr dl then dl else none) nowIso)],
       .okCreated) ∧
    tag ∈ [tag] ∧
    getKey (createMetadata name (if truthyStr dl then dl else none) nowIso)
      ("settlement_" ++ tag) = none :=
  ⟨reconcile_fresh st0 key email tag name dl nowIso hkey hemail hat htag
      hname hnone,
   List.mem_singleton.mpr rfl,
   getKey_createMetadata_settlement name _ nowIso tag⟩

/-- Witness for the amended C1 at concrete inputs. -/
theorem C1_create_path_witness :
    reconcile [] (some "k") "user@x.com" "tagA" "Name" none "T" =
      ([] ++ [{ id := toString (List.length ([] : List Subscriber)),
                email := "user@x.com", tags := some ["tagA"],
                metadata := some (createMetadata "Name"
                  (if truthyStr none then none else none) "T") }],
       [.create (createBody "user@x.com" "tagA" "Name"
         (if truthyStr none then none else none) "T")],
       .okCreated) ∧
    "tagA" ∈ ["tagA"] ∧
    getKey (createMetadata "Name" (if truthyStr none then none else none)
      "T") ("settlement_" ++ "tagA") = none :=
  C1_create_path [] (some "k") "user@x.com" "tagA" "Name" none "T" rfl
    (by decide) (by decide) (by decide) (by decide)
    (by intro s hs; cases hs)

/-- C2 counterexample: reconciling the same email with `tagA` then `tagB`
against an initially empty upstream leaves a final subscriber whose tag
set is `{tagA, tagB}` and whose metadata contains `settlement_tagB` — but
NOT `settlement_tagA`, contradicting the claim that both settlement keys
are present. -/
theorem C2_counterexample :
    ((reconcile
        (reconcile [] (some "k") "user@x.com" "tagA" "Name" none "T1").1
        (some "k") "user@x.com" "tagB" "Name" none "T2").1.map
      (fun s => (s.tags, getKey (s.metadata.getD []) "settlement_tagA",
                 (getKey (s.metadata.getD []) "settlement_tagB").isSome))) =
      [(some ["tagA", "tagB"], none, true)] := by
  decide

/-- C2 (amended): reconcile with `(email, tagA)` then `(email, tagB)`
(distinct tags) against an initially empty upstream results in a final
subscriber whose tag set is `{tagA, tagB}` and whose metadata contains
`settlement_tagB` (written by the update path) but not `settlement_tagA`:
the first call's create path stored flat keys, so no `settlement_tagA`
entry ever exists to be preserved. -/
theorem C2_two_tags (key : Option String) (email tagA tagB n1 n2 : String)
    (dl1 dl2 : Option String) (t1 t2 : String)
    (hkey : truthyStr key = true) (hemail : email ≠ "")
    (hat : containsSub email "@" = true) (hA : tagA ≠ "") (hB : tagB ≠ "")
    (hAB : tagA ≠ tagB) (hn1 : n1 ≠ "") (hn2 : n2 ≠ "") :
    (reconcile [] key email tagA n1 dl1 t1).2.2 = .okCreated ∧
    (reconcile (reconcile [] key email tagA n1 dl1 t1).1 key email tagB n2
      dl2 t2).2.2 = .okUpdated ∧
    ∃ sub : Subscriber,
      (reconcile (reconcile [] key email tagA n1 dl1 t1).1 key email tagB
        n2 dl2 t2).1 = [sub] ∧
      sub.tags = some [tagA, tagB] ∧
      getKey (sub.metadata.getD []) ("settlement_" ++ tagB) =
        some (serializeSettlement n2 (if truthyStr dl2 then dl2 else none)
          t2) ∧
      getKey (sub.metadata.getD []) ("settlement_" ++ tagA) = none := by
  have h1 := reconcile_fresh [] key email tagA n1 dl1 t1 hkey hemail hat hA
    hn1 (by intro s hs; cases hs)
  have hst1 : (reconcile [] key email tagA n1 dl1 t1).1 =
      [{ id := toString (0 : ℕ),
         email := email, tags := some [tagA],
         metadata := some (createMetadata n1
           (if truthyStr dl1 then dl1 else none) t1) }] := by
    simp [h1]
  have hres1 : (reconcile [] key email tagA n1 dl1 t1).2.2 = .okCreated := by
    simp [h1]
  have hmt : mergeTags (some [tagA]) tagB = [tagA, tagB] := by
    simp [mergeTags, Ne.symm hAB]
  have hsk : setKey
      (createMetadata n1 (if truthyStr dl1 then dl1 else none) t1)
      ("settlement_" ++ tagB)
      (serializeSettlement n2 (if truthyStr dl2 then dl2 else none) t2) =
      createMetadata n1 (if truthyStr dl1 then dl1 else none) t1 ++
        [("settlement_" ++ tagB,
          serializeSettlement n2 (if truthyStr dl2 then dl2 else none)
            t2)] := by
    unfold setKey
    rw [any_createMetadata_settlement]
    simp
  have h2 := reconcile_single
    { id := toString (0 : ℕ), email := email,
      tags := some [tagA],
      metadata := some (createMetadata n1
        (if truthyStr dl1 then dl1 else none) t1) }
    key email tagB n2 dl2 t2 hkey hemail hat hB hn2 rfl
  simp only [Option.getD_some] at h2
  rw [hmt, hsk] at h2
  have hneBA : ¬ ("settlement_" ++ tagB = "settlement_" ++ tagA) := by
    intro h
    exact hAB (settlementKey_inj h).symm
  refine ⟨hres1, ?_, ?_⟩
  · rw [hst1]; simp [h2]
  · refine ⟨{ id := toString (0 : ℕ),
              email := email, tags := some [tagA, tagB],
              metadata := some (createMetadata n1
                  (if truthyStr dl1 then dl1 else none) t1 ++
                [("settlement_" ++ tagB,
                  serializeSettlement n2
                    (if truthyStr dl2 then dl2 else none) t2)]) },
      by rw [hst1]; simp [h2], rfl, ?_, ?_⟩
    · show getKey (createMetadata n1 (if truthyStr dl1 then dl1 else none)
        t1 ++ [("settlement_" ++ tagB,
          serializeSettlement n2 (if truthyStr dl2 then dl2 else none)
            t2)]) ("settlement_" ++ tagB) = _
      rw [getKey, List.find?_append, find?_createMetadata_settlement]
      simp
    · show getKey (createMetadata n1 (if truthyStr dl1 then dl1 else none)
        t1 ++ [("settlement_" ++ tagB,
          serializeSettlement n2 (if truthyStr dl2 then dl2 else none)
            t2)]) ("settlement_" ++ tagA) = none
      rw [getKey, List.find?_append, find?_createMetadata_settlement]
      simp [hneBA]

/-- Witness for the amended C2 at concrete inputs. -/
theorem C2_two_tags_witness :
    (reconcile [] (some "k") "user@x.com" "tagA" "NameA" none "T1").2.2 =
      .okCreated ∧
    (reconcile
      (reconcile [] (some "k") "user@x.com" "tagA" "NameA" none "T1").1
      (some "k") "user@x.com" "tagB" "NameB" none "T2").2.2 = .okUpdated ∧
    ∃ sub : Subscriber,
      (reconcile
        (reconcile [] (some "k") "user@x.com" "tagA" "NameA" none "T1").1
        (some "k") "user@x.com" "tagB" "NameB" none "T2").1 = [sub] ∧
      sub.tags = some ["tagA", "tagB"] ∧
      getKey (sub.metadata.getD []) ("settlement_" ++ "tagB") =
        some (serializeSettlement "NameB"
          (if truthyStr none then none else none) "T2") ∧
      getKey (sub.metadata.getD []) ("settlement_" ++ "tagA") = none :=
  C2_two_tags (some "k") "user@x.com" "tagA" "tagB" "NameA" "NameB" none
    none "T1" "T2" rfl (by decide) (by decide) (by decide) (by decide)
    (by decide) (by decide) (by decide)

end MortgageServer
